import Mathlib

/-
Shallow embedding of src/src/equipment/serialmount.py (TelescopeControl).

Python dynamic values appearing in a serial configuration are modelled by
PyVal: exact ints, bools (a distinct runtime type, although numerically
equal to 0/1), floats (modelled as the intended rational value), strings,
and the None singleton.  Exceptions raised by the Python code (KeyError on
a missing dict key, TypeError from re.match on a non-string) are modelled
with Except PyErr.
-/

namespace TelescopeControl

inductive PyVal where
  | int (n : ℤ)
  | bool (b : Bool)
  | float (q : ℚ)
  | str (s : String)
  | none
  deriving DecidableEq

inductive PyErr where
  | keyError
  | typeError
  deriving DecidableEq

/-- Numeric value of a PyVal under Python cross-type numeric equality
(True == 1, False == 0, 1.0 == 1); strings and None are not numeric. -/
def numVal : PyVal → Option ℚ
  | .int n => some (n : ℚ)
  | .bool b => some (if b then 1 else 0)
  | .float q => some q
  | _ => Option.none

/-- Decimal rendering of a float, matching str() on the dyadic rationals
Python floats denote (den divides a power of ten up to the double range). -/
def floatRepr (q : ℚ) : String :=
  let sign := if q.num < 0 then "-" else ""
  if q.den = 1 then sign ++ toString q.num.natAbs ++ ".0"
  else
    match (List.range 1101).find? (fun k => 10 ^ k % q.den == 0) with
    | some k =>
      let m := q.num.natAbs * 10 ^ k / q.den
      let digits := toString m
      let digits := String.mk (List.replicate (k + 1 - digits.length) '0') ++ digits
      sign ++ digits.take (digits.length - k) ++ "." ++ digits.drop (digits.length - k)
    | Option.none => sign ++ toString q.num.natAbs ++ "/" ++ toString q.den

/-- Python str() of a value, as used by the f-string error messages. -/
def pyStr : PyVal → String
  | .int n => toString n
  | .bool b => if b then "True" else "False"
  | .float q => floatRepr q
  | .str s => s
  | .none => "None"

/-- Character class [a-zA-Z0-9\-] of unix_port_re. -/
def isPortBodyChar (c : Char) : Bool := c.isAlpha || c.isDigit || c == '-'

/-- re.match with the compiled pattern /dev/[a-zA-Z0-9\-]+ : a match at the
start of the string needs the literal prefix "/dev/" followed by at least
one character of the class (serialmount.py line 24). -/
def reMatchUnix (s : String) : Bool :=
  match s.toList with
  | '/' :: 'd' :: 'e' :: 'v' :: '/' :: c :: _ => isPortBodyChar c
  | _ => false

/-- re.match with the compiled pattern COM[1-9] (serialmount.py line 25). -/
def reMatchWin (s : String) : Bool :=
  match s.toList with
  | 'C' :: 'O' :: 'M' :: c :: _ => decide ('1' ≤ c) && decide (c ≤ '9')
  | _ => false

/-- serialmount.py line 26. -/
def required_serial_config_keys : List String :=
  ["port", "baud_rate", "data_bits", "stop_bits", "parity"]

/- pyserial serialutil constants used by the lookup tables. -/
def FIVEBITS : PyVal := .int 5
def SIXBITS : PyVal := .int 6
def SEVENBITS : PyVal := .int 7
def EIGHTBITS : PyVal := .int 8
def PARITY_EVEN : PyVal := .str "E"
def PARITY_NONE : PyVal := .str "N"
def PARITY_ODD : PyVal := .str "O"
def STOPBITS_ONE : PyVal := .int 1
def STOPBITS_ONE_POINT_FIVE : PyVal := .float (mkRat 3 2)
def STOPBITS_TWO : PyVal := .int 2

/-- Keys of parity_value_map in declaration order (serialmount.py lines 27-40). -/
def parityKeys : List String :=
  ["e", "E", "even", "Even", "n", "N", "none", "None", "o", "O", "odd", "Odd"]

/-- Dict lookup parity_value_map[v]: string keys, exact string equality;
a non-string never equals a string key. -/
def parity_value_map_lookup (v : PyVal) : Option PyVal :=
  match v with
  | .str s =>
    if s = "e" ∨ s = "E" ∨ s = "even" ∨ s = "Even" then some PARITY_EVEN
    else if s = "n" ∨ s = "N" ∨ s = "none" ∨ s = "None" then some PARITY_NONE
    else if s = "o" ∨ s = "O" ∨ s = "odd" ∨ s = "Odd" then some PARITY_ODD
    else Option.none
  | _ => Option.none

/-- Dict lookup stop_bits_map[v] (keys 1, 1.5, 2) under Python numeric key
equality (serialmount.py lines 41-45). -/
def stop_bits_map_lookup (v : PyVal) : Option PyVal :=
  match numVal v with
  | some q =>
    if q = 1 then some STOPBITS_ONE
    else if q = mkRat 3 2 then some STOPBITS_ONE_POINT_FIVE
    else if q = 2 then some STOPBITS_TWO
    else Option.none
  | Option.none => Option.none

/-- Dict lookup data_bits_map[v] (keys 5, 6, 7, 8) under Python numeric key
equality (serialmount.py lines 46-51). -/
def data_bits_map_lookup (v : PyVal) : Option PyVal :=
  match numVal v with
  | some q =>
    if q = 5 then some FIVEBITS
    else if q = 6 then some SIXBITS
    else if q = 7 then some SEVENBITS
    else if q = 8 then some EIGHTBITS
    else Option.none
  | Option.none => Option.none

/-- Membership test `value in stop_bits_map.keys()` -/
def stopKeyMem (v : PyVal) : Bool :=
  match numVal v with
  | some q => decide (q = 1 ∨ q = mkRat 3 2 ∨ q = 2)
  | Option.none => false

/-- `Key: {key} missing from mount serial config` -/
def missingKeyMsg (k : String) : String :=
  "Key: " ++ k ++ " missing from mount serial config"

def portUnixMsg (v : String) : String :=
  "SerialMount Serial Port wrong format, expected \x27/dev/XXX\x27 but was \x27" ++ v ++ "\x27"

def portWinMsg (v : String) : String :=
  "SerialMount Serial Port wrong format, expected \x27COM<n>\x27 but was \x27" ++ v ++ "\x27"

/-- Fixed message of the baud_rate check (the 203400 is the literal text of
serialmount.py line 128). -/
def baudErrMsg : String :=
  "SerialMount serial baud_rate must be an int between 9600 and 203400 inclusive"

def dataBitsErrMsg : String :=
  "SerialMount serial data_bits must be an int between 5 and 8 inclusive"

def parityErrMsg (x : String) : String :=
  "SerialMount serial parity must be one of [" ++ String.intercalate "," parityKeys
    ++ "] but was \x27" ++ x ++ "\x27"

/-- str(x) for x in stop_bits_map.keys() -/
def stopBitsKeyStrs : List String := [pyStr (.int 1), pyStr (.float (mkRat 3 2)), pyStr (.int 2)]

def stopBitsErrMsg (x : String) : String :=
  "SerialMount serial stop_bits must be an int one of [" ++ String.intercalate "," stopBitsKeyStrs
    ++ "] but was \x27" ++ x ++ "\x27"

/-- Port check of serialmount.py lines 118-124; os is the value of
platform.system().  re.match on a non-string value raises TypeError; the
regex is only evaluated when the platform guard before it is true. -/
def checkPortVal (os : String) (v : PyVal) : Except PyErr (Option String) :=
  if os = "Linux" ∨ os = "Darwin" then
    match v with
    | .str s => if reMatchUnix s then .ok Option.none else .ok (some (portUnixMsg s))
    | _ => .error .typeError
  else if os = "Windows" then
    match v with
    | .str s => if reMatchWin s then .ok Option.none else .ok (some (portWinMsg s))
    | _ => .error .typeError
  else .ok Option.none

/-- baud_rate check of serialmount.py lines 126-128: type(value) is int
(a bool or a float has a different runtime type) and 9600 <= value <= 230400.
The range comparison is short-circuited behind the type test. -/
def checkBaudVal (v : PyVal) : Option String :=
  match v with
  | .int n => if n < 9600 ∨ n > 230400 then some baudErrMsg else Option.none
  | _ => some baudErrMsg

/-- data_bits check of serialmount.py lines 130-132: exact int type and
membership in data_bits_map.keys(). -/
def checkDataBitsVal (v : PyVal) : Option String :=
  match v with
  | .int n => if n = 5 ∨ n = 6 ∨ n = 7 ∨ n = 8 then Option.none else some dataBitsErrMsg
  | _ => some dataBitsErrMsg

/-- parity check of serialmount.py lines 134-136: exact str type and
membership in parity_value_map.keys(). -/
def checkParityVal (v : PyVal) : Option String :=
  match v with
  | .str s => if parityKeys.contains s then Option.none else some (parityErrMsg s)
  | _ => some (parityErrMsg (pyStr v))

/-- stop_bits check of serialmount.py lines 138-140: no type test, only
`value not in stop_bits_map.keys()` (Python numeric key equality). -/
def checkStopBitsVal (v : PyVal) : Option String :=
  if stopKeyMem v then Option.none else some (stopBitsErrMsg (pyStr v))

/-- The serial sub-mapping: the five keys the code consults. A field of
Option.none models an absent key. -/
structure SerialDict where
  port : Option PyVal := Option.none
  baud_rate : Option PyVal := Option.none
  data_bits : Option PyVal := Option.none
  stop_bits : Option PyVal := Option.none
  parity : Option PyVal := Option.none
  deriving DecidableEq

/-- The top-level configuration mapping; serial = Option.none models the
absence of the nested serial key. -/
structure Config where
  serial : Option SerialDict := Option.none
  deriving DecidableEq

/-- One loop iteration result for the port key: missing key emits the
missing-key message and skips the checks (the continue). -/
def portRes (os : String) : Option PyVal → Except PyErr (Option String)
  | Option.none => .ok (some (missingKeyMsg "port"))
  | some v => checkPortVal os v

def baudRes : Option PyVal → Option String
  | Option.none => some (missingKeyMsg "baud_rate")
  | some v => checkBaudVal v

def dataRes : Option PyVal → Option String
  | Option.none => some (missingKeyMsg "data_bits")
  | some v => checkDataBitsVal v

def stopRes : Option PyVal → Option String
  | Option.none => some (missingKeyMsg "stop_bits")
  | some v => checkStopBitsVal v

def parityRes : Option PyVal → Option String
  | Option.none => some (missingKeyMsg "parity")
  | some v => checkParityVal v

/-- Body of the for-loop of validate_config for one key: the five guarded
ifs of lines 118-140 fire only on the iteration whose key matches. -/
def checkKey (os : String) (d : SerialDict) : String → Except PyErr (Option String)
  | "port" => portRes os d.port
  | "baud_rate" => .ok (baudRes d.baud_rate)
  | "data_bits" => .ok (dataRes d.data_bits)
  | "stop_bits" => .ok (stopRes d.stop_bits)
  | "parity" => .ok (parityRes d.parity)
  | _ => .ok Option.none

/-- The for-loop of lines 108-140: the accumulator is (has_error, errors);
an emitted message sets has_error and appends. -/
def validateFold (os : String) (d : SerialDict) : List String → Bool × List String → Except PyErr (Bool × List String)
  | [], acc => .ok acc
  | k :: rest, acc =>
    match checkKey os d k with
    | .error e => .error e
    | .ok Option.none => validateFold os d rest acc
    | .ok (some msg) => validateFold os d rest (true, acc.2 ++ [msg])

/-- SerialMount.validate_config (serialmount.py lines 101-142).
Line 107 config[serial] raises KeyError when the key is absent; the loop
may raise TypeError from the port regex; otherwise the function returns
(not has_error, errors). -/
def validate_config (os : String) (cfg : Config) : Except PyErr (Bool × List String) :=
  match cfg.serial with
  | Option.none => .error .keyError
  | some d =>
    match validateFold os d required_serial_config_keys (false, []) with
    | .error e => .error e
    | .ok res => .ok (!res.1, res.2)

/-- The Serial transport handle: the five parameters the code assigns plus
the open flag. -/
structure SerialPort where
  port : PyVal := .none
  baudrate : PyVal := .int 9600
  bytesize : PyVal := EIGHTBITS
  parity : PyVal := PARITY_NONE
  stopbits : PyVal := STOPBITS_ONE
  is_open : Bool := false
  deriving DecidableEq

/-- Serial(): a fresh closed transport with pyserial defaults. -/
def serialNew : SerialPort := {}

/-- SerialMount.apply_config_to_serial_port (serialmount.py lines 93-99):
port and baud_rate and data_bits are assigned verbatim; stop_bits and
parity go through the lookup tables (KeyError on a missed lookup; a raise
abandons the remaining assignments, the partially updated transport is not
observed by any caller modelled here). -/
def apply_config_to_serial_port (cfg : Config) (p : SerialPort) : Except PyErr SerialPort :=
  match cfg.serial with
  | Option.none => .error .keyError
  | some d =>
    match d.port with
    | Option.none => .error .keyError
    | some pv =>
      match d.baud_rate with
      | Option.none => .error .keyError
      | some bv =>
        match d.data_bits with
        | Option.none => .error .keyError
        | some dv =>
          match d.stop_bits with
          | Option.none => .error .keyError
          | some sv =>
            match stop_bits_map_lookup sv with
            | Option.none => .error .keyError
            | some sb =>
              match d.parity with
              | Option.none => .error .keyError
              | some rv =>
                match parity_value_map_lookup rv with
                | Option.none => .error .keyError
                | some pr =>
                  .ok { p with port := pv, baudrate := bv, bytesize := dv,
                                stopbits := sb, parity := pr }

/-- Instance state of a SerialMount after __init__. -/
structure SerialMountState where
  config : Config
  serial_port : SerialPort
  polar_aligned : Bool
  deriving DecidableEq

namespace SerialMount

/-- SerialMount.__init__ (serialmount.py lines 60-71): an externally
supplied transport is adopted as-is with no validation and no mapping;
otherwise a fresh Serial() is validated-and-configured (an invalid
configuration only prints the errors and leaves the transport
unconfigured). -/
def init (os : String) (config : Config) (serial_port : Option SerialPort) : Except PyErr SerialMountState :=
  match serial_port with
  | some p => .ok { config := config, serial_port := p, polar_aligned := false }
  | Option.none =>
    match validate_config os config with
    | .error e => .error e
    | .ok res =>
      if res.1 then
        match apply_config_to_serial_port config serialNew with
        | .error e => .error e
        | .ok p2 => .ok { config := config, serial_port := p2, polar_aligned := false }
      else
        .ok { config := config, serial_port := serialNew, polar_aligned := false }

/-- connected property (lines 81-83): the transport is_open flag. -/
def connected (st : SerialMountState) : Bool := st.serial_port.is_open

/-- connect (lines 90-91): open the transport channel. -/
def connect (st : SerialMountState) : SerialMountState :=
  { st with serial_port := { st.serial_port with is_open := true } }

end SerialMount

/-
Shared lemmas.
-/

/-- Unrolling of the validation loop: with the serial sub-mapping present,
validate_config collects the five per-field results in the fixed key order
port, baud_rate, data_bits, stop_bits, parity, provided the port check does
not raise. -/
theorem validate_config_some_eq (os : String) (d : SerialDict) :
    validate_config os { serial := some d } =
      (portRes os d.port).map (fun e1 =>
        (!(e1.isSome || (baudRes d.baud_rate).isSome || (dataRes d.data_bits).isSome
            || (stopRes d.stop_bits).isSome || (parityRes d.parity).isSome),
         [e1, baudRes d.baud_rate, dataRes d.data_bits, stopRes d.stop_bits,
          parityRes d.parity].filterMap id)) := by
  cases h1 : portRes os d.port with
  | error e =>
    simp [validate_config, required_serial_config_keys, validateFold, checkKey, h1, Except.map]
  | ok e1 =>
    cases e1 <;>
    cases h2 : baudRes d.baud_rate <;>
    cases h3 : dataRes d.data_bits <;>
    cases h4 : stopRes d.stop_bits <;>
    cases h5 : parityRes d.parity <;>
    simp [validate_config, required_serial_config_keys, validateFold, checkKey,
      h1, h2, h3, h4, h5, Except.map, List.filterMap]

/-- A concrete fully valid serial configuration (used by witnesses). -/
def dGood : SerialDict :=
  { port := some (.str "/dev/ttyUSB0"), baud_rate := some (.int 115200),
    data_bits := some (.int 8), stop_bits := some (.int 1), parity := some (.str "none") }

def cfgGood : Config := { serial := some dGood }

/-- The port check on a string value never raises. -/
theorem checkPortVal_str_ok (os : String) (s : String) :
    ∃ e, checkPortVal os (.str s) = .ok e := by
  by_cases hA : os = "Linux" ∨ os = "Darwin"
  · by_cases hm : reMatchUnix s = true
    · exact ⟨Option.none, by simp [checkPortVal, hA, hm]⟩
    · exact ⟨some (portUnixMsg s), by simp [checkPortVal, hA, hm]⟩
  · by_cases hW : os = "Windows"
    · by_cases hm : reMatchWin s = true
      · exact ⟨Option.none, by simp [checkPortVal, hA, hW, hm]⟩
      · exact ⟨some (portWinMsg s), by simp [checkPortVal, hA, hW, hm]⟩
    · exact ⟨Option.none, by simp [checkPortVal, hA, hW]⟩

/-- On a platform other than Linux, Darwin and Windows the port check is
skipped: no regex is evaluated and no error can be emitted, whatever the
value. -/
theorem checkPortVal_skip (os : String) (v : PyVal)
    (h1 : os ≠ "Linux") (h2 : os ≠ "Darwin") (h3 : os ≠ "Windows") :
    checkPortVal os v = .ok Option.none := by
  unfold checkPortVal
  rw [if_neg (by tauto), if_neg h3]

/-- C1: for every configuration mapping on which validate_config returns,
the returned validity flag is true if and only if the returned error list
is empty. -/
theorem C1_valid_iff_errors_empty (os : String) (cfg : Config) (b : Bool) (errs : List String)
    (h : validate_config os cfg = .ok (b, errs)) : b = true ↔ errs = [] := by
  obtain ⟨s⟩ := cfg
  cases s with
  | none => simp [validate_config] at h
  | some d =>
    rw [validate_config_some_eq] at h
    cases hp : portRes os d.port with
    | error e => rw [hp] at h; simp [Except.map] at h
    | ok e1 =>
      rw [hp] at h
      simp only [Except.map, Except.ok.injEq, Prod.mk.injEq] at h
      obtain ⟨hb, he⟩ := h
      subst hb he
      rcases e1 with _ | m1 <;>
      rcases baudRes d.baud_rate with _ | m2 <;>
      rcases dataRes d.data_bits with _ | m3 <;>
      rcases stopRes d.stop_bits with _ | m4 <;>
      rcases parityRes d.parity with _ | m5 <;>
      simp [List.filterMap]

theorem C1_witness : (true = true ↔ ([] : List String) = []) :=
  C1_valid_iff_errors_empty "Linux" cfgGood true [] rfl

/-- C2 counterexample: the claim says validate_config never raises, in
particular when the top-level serial key is absent; in the code, line 107
config[serial] raises KeyError on such an input (modelled as Except.error),
so no (valid, errors) result is returned. -/
theorem C2_counterexample :
    validate_config "Linux" { serial := Option.none } = .error PyErr.keyError := rfl

/-- C2 (amended): validate_config returns a (valid, errors) result for
every mapping that contains the serial key, provided that whenever the
platform identifier is Linux, Darwin or Windows a present port value is a
string; with the serial key absent it raises KeyError, and a non-string
port value on those platforms raises TypeError from the regex match. -/
theorem C2_amended_total (os : String) (d : SerialDict)
    (h : ∀ v : PyVal, d.port = some v →
      (os = "Linux" ∨ os = "Darwin" ∨ os = "Windows") → ∃ s : String, v = .str s) :
    ∃ b errs, validate_config os { serial := some d } = .ok (b, errs) := by
  rw [validate_config_some_eq]
  have hok : ∃ e1, portRes os d.port = .ok e1 := by
    cases hp : d.port with
    | none => exact ⟨_, rfl⟩
    | some v =>
      by_cases h3 : os = "Linux" ∨ os = "Darwin" ∨ os = "Windows"
      · obtain ⟨s, rfl⟩ := h v hp h3
        exact checkPortVal_str_ok os s
      · push_neg at h3
        exact ⟨_, checkPortVal_skip os v h3.1 h3.2.1 h3.2.2⟩
  obtain ⟨e1, he1⟩ := hok
  rw [he1]
  exact ⟨_, _, rfl⟩

theorem C2_amended_witness :
    ∃ b errs, validate_config "Linux" { serial := some dGood } = .ok (b, errs) :=
  C2_amended_total "Linux" dGood (by
    intro v hv _
    simp only [dGood, Option.some.injEq] at hv
    exact ⟨"/dev/ttyUSB0", hv.symm⟩)

/-- A configuration whose stop_bits and parity are both invalid, the other
three fields valid. -/
def dBadOrder : SerialDict :=
  { dGood with stop_bits := some (.int 3), parity := some (.str "foo") }

set_option maxRecDepth 8000 in
/-- C5 counterexample: with stop_bits and parity both invalid, the code
emits the stop_bits message BEFORE the parity message (the fixed key list
of line 26 is [port, baud_rate, data_bits, stop_bits, parity]), while the
claim requires the parity message first; the two messages differ, so the
claimed order does not hold. -/
theorem C5_counterexample :
    validate_config "Linux" { serial := some dBadOrder } =
      .ok (false, [stopBitsErrMsg "3", parityErrMsg "foo"]) ∧
    validate_config "Linux" { serial := some dBadOrder } ≠
      .ok (false, [parityErrMsg "foo", stopBitsErrMsg "3"]) := by
  refine ⟨rfl, fun hcl => ?_⟩
  have key : (Except.ok (false, [stopBitsErrMsg "3", parityErrMsg "foo"]) :
      Except PyErr (Bool × List String)) = .ok (false, [parityErrMsg "foo", stopBitsErrMsg "3"]) := by
    rw [← hcl]
    rfl
  simp only [Except.ok.injEq, Prod.mk.injEq, List.cons.injEq, true_and] at key
  exact absurd key.1 (by decide)

/-- C5 (amended): the error list returned by validate_config lists the
per-field messages in the fixed field-check order port, baud_rate,
data_bits, stop_bits, parity, with at most one message per field per
pass. -/
theorem C5_amended_error_order (os : String) (d : SerialDict) (b : Bool) (errs : List String)
    (h : validate_config os { serial := some d } = .ok (b, errs)) :
    ∃ e1, portRes os d.port = .ok e1 ∧
      errs = [e1, baudRes d.baud_rate, dataRes d.data_bits, stopRes d.stop_bits,
              parityRes d.parity].filterMap id := by
  rw [validate_config_some_eq] at h
  cases hp : portRes os d.port with
  | error e => rw [hp] at h; simp [Except.map] at h
  | ok e1 =>
    rw [hp] at h
    simp only [Except.map, Except.ok.injEq, Prod.mk.injEq] at h
    exact ⟨e1, rfl, h.2.symm⟩

theorem C5_amended_witness :
    ∃ e1, portRes "Linux" dBadOrder.port = .ok e1 ∧
      [stopBitsErrMsg "3", parityErrMsg "foo"] =
        [e1, baudRes dBadOrder.baud_rate, dataRes dBadOrder.data_bits,
         stopRes dBadOrder.stop_bits, parityRes dBadOrder.parity].filterMap id :=
  C5_amended_error_order "Linux" dBadOrder false [stopBitsErrMsg "3", parityErrMsg "foo"] rfl

/-- C7: a configuration in which exactly one of the five required serial
keys is absent and all present fields are valid yields valid=false with
exactly the one missing-key message naming that field; the other field
checks still run. -/
theorem C7_single_missing_key (os : String) (d : SerialDict) :
    (d.port = Option.none → baudRes d.baud_rate = Option.none →
      dataRes d.data_bits = Option.none → stopRes d.stop_bits = Option.none →
      parityRes d.parity = Option.none →
      validate_config os { serial := some d } = .ok (false, [missingKeyMsg "port"])) ∧
    (d.baud_rate = Option.none → portRes os d.port = .ok Option.none →
      dataRes d.data_bits = Option.none → stopRes d.stop_bits = Option.none →
      parityRes d.parity = Option.none →
      validate_config os { serial := some d } = .ok (false, [missingKeyMsg "baud_rate"])) ∧
    (d.data_bits = Option.none → portRes os d.port = .ok Option.none →
      baudRes d.baud_rate = Option.none → stopRes d.stop_bits = Option.none →
      parityRes d.parity = Option.none →
      validate_config os { serial := some d } = .ok (false, [missingKeyMsg "data_bits"])) ∧
    (d.stop_bits = Option.none → portRes os d.port = .ok Option.none →
      baudRes d.baud_rate = Option.none → dataRes d.data_bits = Option.none →
      parityRes d.parity = Option.none →
      validate_config os { serial := some d } = .ok (false, [missingKeyMsg "stop_bits"])) ∧
    (d.parity = Option.none → portRes os d.port = .ok Option.none →
      baudRes d.baud_rate = Option.none → dataRes d.data_bits = Option.none →
      stopRes d.stop_bits = Option.none →
      validate_config os { serial := some d } = .ok (false, [missingKeyMsg "parity"])) := by
  refine ⟨?_, ?_, ?_, ?_, ?_⟩ <;> intro h0 h1 h2 h3 h4
  · have hm : portRes os d.port = .ok (some (missingKeyMsg "port")) := by rw [h0]; rfl
    simp [validate_config_some_eq, hm, h1, h2, h3, h4, Except.map, List.filterMap]
  · have hm : baudRes d.baud_rate = some (missingKeyMsg "baud_rate") := by rw [h0]; rfl
    simp [validate_config_some_eq, h1, hm, h2, h3, h4, Except.map, List.filterMap]
  · have hm : dataRes d.data_bits = some (missingKeyMsg "data_bits") := by rw [h0]; rfl
    simp [validate_config_some_eq, h1, h2, hm, h3, h4, Except.map, List.filterMap]
  · have hm : stopRes d.stop_bits = some (missingKeyMsg "stop_bits") := by rw [h0]; rfl
    simp [validate_config_some_eq, h1, h2, h3, hm, h4, Except.map, List.filterMap]
  · have hm : parityRes d.parity = some (missingKeyMsg "parity") := by rw [h0]; rfl
    simp [validate_config_some_eq, h1, h2, h3, h4, hm, Except.map, List.filterMap]

theorem C7_witness :
    validate_config "Linux" { serial := some { dGood with port := Option.none } } =
      .ok (false, [missingKeyMsg "port"]) :=
  (C7_single_missing_key "Linux" { dGood with port := Option.none }).1 rfl rfl rfl rfl rfl

/-- The baud_rate check accepts exactly the exact-int values in the
inclusive range 9600..230400 (bool and float constructors are distinct
runtime types and never satisfy it). -/
theorem checkBaudVal_none_iff (v : PyVal) :
    checkBaudVal v = Option.none ↔ ∃ n : ℤ, v = .int n ∧ 9600 ≤ n ∧ n ≤ 230400 := by
  cases v with
  | int n =>
    by_cases hc : n < 9600 ∨ n > 230400
    · simp [checkBaudVal, hc]; omega
    · simp [checkBaudVal, hc]; omega
  | bool b => simp [checkBaudVal]
  | float q => simp [checkBaudVal]
  | str s => simp [checkBaudVal]
  | none => simp [checkBaudVal]

/-- A failing baud_rate check emits the one fixed message. -/
theorem checkBaudVal_some_eq (v : PyVal) (m : String) (h : checkBaudVal v = some m) :
    m = baudErrMsg := by
  cases v with
  | int n =>
    simp only [checkBaudVal] at h
    split_ifs at h with hc
    exact (Option.some.inj h).symm
  | bool b => simp [checkBaudVal] at h; exact h.symm
  | float q => simp [checkBaudVal] at h; exact h.symm
  | str s => simp [checkBaudVal] at h; exact h.symm
  | none => simp [checkBaudVal] at h; exact h.symm

/-- C4: with the four other fields valid, the configuration passes
validation iff the baud_rate value is of exact integer type within
9600..230400 inclusive (floats such as 10000.0 and booleans are not of
int type); any failing value yields exactly the one fixed baud-rate
message. -/
theorem C4_baud_rate_range (os : String) (d : SerialDict) (v : PyVal)
    (hv : d.baud_rate = some v)
    (hport : portRes os d.port = .ok Option.none)
    (hd : dataRes d.data_bits = Option.none)
    (hs : stopRes d.stop_bits = Option.none)
    (hp : parityRes d.parity = Option.none) :
    (validate_config os { serial := some d } = .ok (true, []) ↔
      ∃ n : ℤ, v = PyVal.int n ∧ 9600 ≤ n ∧ n ≤ 230400) ∧
    ((¬ ∃ n : ℤ, v = PyVal.int n ∧ 9600 ≤ n ∧ n ≤ 230400) →
      validate_config os { serial := some d } = .ok (false, [baudErrMsg])) := by
  have hbr : baudRes d.baud_rate = checkBaudVal v := by rw [hv]; rfl
  cases hcb : checkBaudVal v with
  | none =>
    have hval : validate_config os { serial := some d } = .ok (true, []) := by
      simp [validate_config_some_eq, hport, hbr, hcb, hd, hs, hp, Except.map, List.filterMap]
    refine ⟨⟨fun _ => (checkBaudVal_none_iff v).mp hcb, fun _ => hval⟩, fun hnot => ?_⟩
    exact absurd ((checkBaudVal_none_iff v).mp hcb) hnot
  | some m =>
    have hm : m = baudErrMsg := checkBaudVal_some_eq v m hcb
    subst hm
    have hval : validate_config os { serial := some d } = .ok (false, [baudErrMsg]) := by
      simp [validate_config_some_eq, hport, hbr, hcb, hd, hs, hp, Except.map, List.filterMap]
    have hnot : ¬ ∃ n : ℤ, v = PyVal.int n ∧ 9600 ≤ n ∧ n ≤ 230400 := by
      intro hex
      rw [(checkBaudVal_none_iff v).mpr hex] at hcb
      exact Option.noConfusion hcb
    refine ⟨⟨fun heq => ?_, fun hex => absurd hex hnot⟩, fun _ => hval⟩
    rw [hval] at heq
    simp at heq

theorem C4_witness :
    ((validate_config "Linux" { serial := some dGood } = .ok (true, []) ↔
        ∃ n : ℤ, PyVal.int 115200 = PyVal.int n ∧ 9600 ≤ n ∧ n ≤ 230400) ∧
      ((¬ ∃ n : ℤ, PyVal.int 115200 = PyVal.int n ∧ 9600 ≤ n ∧ n ≤ 230400) →
        validate_config "Linux" { serial := some dGood } = .ok (false, [baudErrMsg]))) :=
  C4_baud_rate_range "Linux" dGood (PyVal.int 115200) rfl rfl rfl rfl rfl

/-- C6: with the other four fields valid, the port /dev/test passes
validation on the Linux and Darwin platform identifiers and fails on
Windows with the Windows-format message naming the value; the port COM1
passes on Windows and fails on Linux and Darwin with the POSIX-format
message naming the value. -/
theorem C6_port_platform_patterns (d : SerialDict)
    (hb : baudRes d.baud_rate = Option.none) (hd : dataRes d.data_bits = Option.none)
    (hs : stopRes d.stop_bits = Option.none) (hp : parityRes d.parity = Option.none) :
    (d.port = some (.str "/dev/test") →
      validate_config "Linux" { serial := some d } = .ok (true, []) ∧
      validate_config "Darwin" { serial := some d } = .ok (true, []) ∧
      validate_config "Windows" { serial := some d } =
        .ok (false, [portWinMsg "/dev/test"])) ∧
    (d.port = some (.str "COM1") →
      validate_config "Linux" { serial := some d } =
        .ok (false, [portUnixMsg "COM1"]) ∧
      validate_config "Darwin" { serial := some d } =
        .ok (false, [portUnixMsg "COM1"]) ∧
      validate_config "Windows" { serial := some d } = .ok (true, [])) := by
  have r1 : checkPortVal "Linux" (.str "/dev/test") = .ok Option.none := rfl
  have r2 : checkPortVal "Darwin" (.str "/dev/test") = .ok Option.none := rfl
  have r3 : checkPortVal "Windows" (.str "/dev/test") = .ok (some (portWinMsg "/dev/test")) := rfl
  have r4 : checkPortVal "Linux" (.str "COM1") = .ok (some (portUnixMsg "COM1")) := rfl
  have r5 : checkPortVal "Darwin" (.str "COM1") = .ok (some (portUnixMsg "COM1")) := rfl
  have r6 : checkPortVal "Windows" (.str "COM1") = .ok Option.none := rfl
  constructor <;> intro hport <;>
    refine ⟨?_, ?_, ?_⟩ <;>
    simp [validate_config_some_eq, portRes, hport, r1, r2, r3, r4, r5, r6,
      hb, hd, hs, hp, Except.map, List.filterMap]

theorem C6_witness :
    validate_config "Linux" { serial := some { dGood with port := some (.str "/dev/test") } } =
        .ok (true, []) ∧
      validate_config "Darwin" { serial := some { dGood with port := some (.str "/dev/test") } } =
        .ok (true, []) ∧
      validate_config "Windows" { serial := some { dGood with port := some (.str "/dev/test") } } =
        .ok (false, [portWinMsg "/dev/test"]) :=
  (C6_port_platform_patterns { dGood with port := some (.str "/dev/test") }
    rfl rfl rfl rfl).1 rfl

/-- C10: on a platform identifier other than Linux, Darwin and Windows the
port format check is skipped entirely (no value can produce a port error),
and in particular any string port passes validation when the other fields
are valid. -/
theorem C10_port_check_skipped (os : String) (d : SerialDict) (s : String)
    (h1 : os ≠ "Linux") (h2 : os ≠ "Darwin") (h3 : os ≠ "Windows")
    (hport : d.port = some (.str s))
    (hb : baudRes d.baud_rate = Option.none) (hd : dataRes d.data_bits = Option.none)
    (hs : stopRes d.stop_bits = Option.none) (hp : parityRes d.parity = Option.none) :
    (∀ v : PyVal, checkPortVal os v = .ok Option.none) ∧
    validate_config os { serial := some d } = .ok (true, []) := by
  have hskip : ∀ v : PyVal, checkPortVal os v = .ok Option.none :=
    fun v => checkPortVal_skip os v h1 h2 h3
  refine ⟨hskip, ?_⟩
  simp [validate_config_some_eq, portRes, hport, hskip (.str s),
    hb, hd, hs, hp, Except.map, List.filterMap]

theorem C10_witness :
    (∀ v : PyVal, checkPortVal "Java" v = .ok Option.none) ∧
    validate_config "Java" { serial := some { dGood with port := some (.str "COM1") } } =
      .ok (true, []) :=
  C10_port_check_skipped "Java" { dGood with port := some (.str "COM1") } "COM1"
    (by decide) (by decide) (by decide) rfl rfl rfl rfl rfl

/-- C9: the stop_bits check has no strict type rule; it tests membership
by numeric equality against the keys 1, 1.5, 2: the boolean True and the
float 1.0 are accepted (each numerically equal to the key 1) while False
is rejected (numerically 0, not a key). -/
theorem C9_stop_bits_numeric_membership :
    checkStopBitsVal (.bool true) = Option.none ∧
    checkStopBitsVal (.float 1) = Option.none ∧
    checkStopBitsVal (.bool false) = some (stopBitsErrMsg "False") ∧
    (∀ v : PyVal, checkStopBitsVal v = Option.none ↔
      ∃ q : ℚ, numVal v = some q ∧ (q = 1 ∨ q = mkRat 3 2 ∨ q = 2)) := by
  refine ⟨rfl, rfl, rfl, fun v => ?_⟩
  unfold checkStopBitsVal stopKeyMem
  cases hn : numVal v with
  | none => simp
  | some q => by_cases hq : q = 1 ∨ q = mkRat 3 2 ∨ q = 2 <;> simp [hq]

/-- A data_bits value accepted by the check is an exact int in the key set
of data_bits_map, and the table lookup on it is the identity (FIVEBITS
through EIGHTBITS are the ints 5 through 8). -/
theorem checkDataBitsVal_none_lookup (v : PyVal) (h : checkDataBitsVal v = Option.none) :
    data_bits_map_lookup v = some v := by
  cases v with
  | int n =>
    simp only [checkDataBitsVal] at h
    split_ifs at h with hc
    rcases hc with rfl | rfl | rfl | rfl <;> rfl
  | bool b => simp [checkDataBitsVal] at h
  | float q => simp [checkDataBitsVal] at h
  | str s => simp [checkDataBitsVal] at h
  | none => simp [checkDataBitsVal] at h

/-- A stop_bits value accepted by the check has a successful
stop_bits_map lookup. -/
theorem checkStopBitsVal_none_lookup (v : PyVal) (h : checkStopBitsVal v = Option.none) :
    ∃ sb, stop_bits_map_lookup v = some sb := by
  unfold checkStopBitsVal at h
  unfold stopKeyMem at h
  unfold stop_bits_map_lookup
  cases hn : numVal v with
  | none => rw [hn] at h; simp at h
  | some q =>
    rw [hn] at h
    by_cases hq : q = 1 ∨ q = mkRat 3 2 ∨ q = 2
    · rcases hq with rfl | rfl | rfl <;> exact ⟨_, rfl⟩
    · simp [hq] at h

/-- A parity value accepted by the check has a successful
parity_value_map lookup. -/
theorem checkParityVal_none_lookup (v : PyVal) (h : checkParityVal v = Option.none) :
    ∃ pr, parity_value_map_lookup v = some pr := by
  cases v with
  | str s =>
    simp only [checkParityVal] at h
    split_ifs at h with hc
    have hmem : s ∈ parityKeys := List.mem_of_elem_eq_true hc
    simp only [parityKeys] at hmem
    fin_cases hmem <;> exact ⟨_, rfl⟩
  | int n => simp [checkParityVal] at h
  | bool b => simp [checkParityVal] at h
  | float q => simp [checkParityVal] at h
  | none => simp [checkParityVal] at h

/-- C3: on a configuration that passes validation,
apply_config_to_serial_port sets the transport port and baud rate to the
input values verbatim, and sets the data-bits, stop-bits and parity fields
to the enumeration obtained by looking the input value up in the fixed
data-bits, stop-bits and parity tables (for data_bits the table is the
identity on its key set, so the verbatim assignment of line 97 coincides
with the table value). -/
theorem C3_apply_valid_config (os : String) (d : SerialDict) (p : SerialPort)
    (pv bv dv sv rv : PyVal)
    (hpv : d.port = some pv) (hbv : d.baud_rate = some bv) (hdv : d.data_bits = some dv)
    (hsv : d.stop_bits = some sv) (hrv : d.parity = some rv)
    (hvalid : validate_config os { serial := some d } = .ok (true, [])) :
    ∃ db sb pr,
      data_bits_map_lookup dv = some db ∧ db = dv ∧
      stop_bits_map_lookup sv = some sb ∧
      parity_value_map_lookup rv = some pr ∧
      apply_config_to_serial_port { serial := some d } p =
        .ok { p with port := pv, baudrate := bv, bytesize := db,
                     stopbits := sb, parity := pr } := by
  rw [validate_config_some_eq] at hvalid
  cases hp : portRes os d.port with
  | error e => rw [hp] at hvalid; simp [Except.map] at hvalid
  | ok e1 =>
    rw [hp] at hvalid
    simp only [Except.map, Except.ok.injEq, Prod.mk.injEq] at hvalid
    obtain ⟨hb, he⟩ := hvalid
    have hall := List.filterMap_eq_nil_iff.mp he
    have h3 : dataRes d.data_bits = Option.none :=
      hall _ (List.mem_cons_of_mem _ (List.mem_cons_of_mem _ (List.mem_cons_self _ _)))
    have h4 : stopRes d.stop_bits = Option.none :=
      hall _ (List.mem_cons_of_mem _ (List.mem_cons_of_mem _ (List.mem_cons_of_mem _
        (List.mem_cons_self _ _))))
    have h5 : parityRes d.parity = Option.none :=
      hall _ (List.mem_cons_of_mem _ (List.mem_cons_of_mem _ (List.mem_cons_of_mem _
        (List.mem_cons_of_mem _ (List.mem_cons_self _ _)))))
    have hdn : checkDataBitsVal dv = Option.none := by rw [hdv] at h3; exact h3
    have hsn : checkStopBitsVal sv = Option.none := by rw [hsv] at h4; exact h4
    have hpn : checkParityVal rv = Option.none := by rw [hrv] at h5; exact h5
    have hdb := checkDataBitsVal_none_lookup dv hdn
    obtain ⟨sb, hsb⟩ := checkStopBitsVal_none_lookup sv hsn
    obtain ⟨pr, hpr⟩ := checkParityVal_none_lookup rv hpn
    refine ⟨dv, sb, pr, hdb, rfl, hsb, hpr, ?_⟩
    simp [apply_config_to_serial_port, hpv, hbv, hdv, hsv, hrv, hsb, hpr]

theorem C3_witness :
    ∃ db sb pr,
      data_bits_map_lookup (.int 8) = some db ∧ db = PyVal.int 8 ∧
      stop_bits_map_lookup (.int 1) = some sb ∧
      parity_value_map_lookup (.str "none") = some pr ∧
      apply_config_to_serial_port { serial := some dGood } serialNew =
        .ok { serialNew with port := .str "/dev/ttyUSB0", baudrate := .int 115200,
                             bytesize := db, stopbits := sb, parity := pr } :=
  C3_apply_valid_config "Linux" dGood serialNew (.str "/dev/ttyUSB0") (.int 115200)
    (.int 8) (.int 1) (.str "none") rfl rfl rfl rfl rfl rfl

/-- A successful apply_config_to_serial_port never touches the is_open
flag of the transport. -/
theorem apply_config_preserves_is_open (cfg : Config) (p p2 : SerialPort)
    (h : apply_config_to_serial_port cfg p = .ok p2) : p2.is_open = p.is_open := by
  simp only [apply_config_to_serial_port] at h
  repeat' split at h
  all_goals first
    | exact Except.noConfusion h
    | (injection h with h; subst h; rfl)

/-- C8: a mount constructed with an externally supplied transport adopts
it as-is (no validation, no parameter mapping, under any configuration),
so it reports connected=true immediately when that transport is open;
a mount constructed with no transport has a fresh closed transport and
reports connected=false until connect is called, after which connected is
true. -/
theorem C8_transport_adoption :
    (∀ (os : String) (cfg : Config) (p : SerialPort),
      SerialMount.init os cfg (some p) =
        .ok { config := cfg, serial_port := p, polar_aligned := false }) ∧
    (∀ (os : String) (cfg : Config) (p : SerialPort), p.is_open = true →
      ∀ st, SerialMount.init os cfg (some p) = .ok st → SerialMount.connected st = true) ∧
    (∀ (os : String) (cfg : Config) (st : SerialMountState),
      SerialMount.init os cfg Option.none = .ok st →
      SerialMount.connected st = false ∧
      SerialMount.connected (SerialMount.connect st) = true) := by
  refine ⟨fun os cfg p => rfl, fun os cfg p hopen st hst => ?_, fun os cfg st hst => ?_⟩
  · have : st = { config := cfg, serial_port := p, polar_aligned := false } :=
      (Except.ok.inj hst).symm
    subst this
    exact hopen
  · refine ⟨?_, rfl⟩
    simp only [SerialMount.init] at hst
    split at hst
    · exact Except.noConfusion hst
    · split at hst
      · split at hst
        · exact Except.noConfusion hst
        · rename_i p2 ha
          have hopen2 := apply_config_preserves_is_open _ _ _ ha
          have : st = { config := cfg, serial_port := p2, polar_aligned := false } :=
            (Except.ok.inj hst).symm
          subst this
          exact hopen2
      · have : st = { config := cfg, serial_port := serialNew, polar_aligned := false } :=
          (Except.ok.inj hst).symm
        subst this
        rfl

/-- An externally supplied transport that reports open. -/
def pOpen : SerialPort := { is_open := true }

/-- The transport of a mount built from dGood with no external transport. -/
def pApplied : SerialPort :=
  { port := .str "/dev/ttyUSB0", baudrate := .int 115200, bytesize := .int 8,
    stopbits := .int 1, parity := .str "N", is_open := false }

def stApplied : SerialMountState :=
  { config := cfgGood, serial_port := pApplied, polar_aligned := false }

theorem C8_witness :
    SerialMount.connected { config := cfgGood, serial_port := pOpen, polar_aligned := false } = true ∧
    SerialMount.connected stApplied = false ∧
    SerialMount.connected (SerialMount.connect stApplied) = true :=
  ⟨C8_transport_adoption.2.1 "Linux" cfgGood pOpen rfl _
      (C8_transport_adoption.1 "Linux" cfgGood pOpen),
    (C8_transport_adoption.2.2 "Linux" cfgGood stApplied rfl).1,
    (C8_transport_adoption.2.2 "Linux" cfgGood stApplied rfl).2⟩

end TelescopeControl
